import Mathlib

/-!
Verification of the block-height / date conversion logic of
`src/components/BlockCalculator.tsx`.

The component's arithmetic core consists of two pure conversions,
`calculateBlockFromDate` (date → estimated block height) and
`calculateDateFromBlock` (block height → estimated timestamp), both
parameterised by the current tip height and the constant average block
interval.  Timestamps and heights are modelled as integers (milliseconds /
block counts); JavaScript's `Math.round` is modelled exactly on rationals
as `⌊x + 1/2⌋`, which is its definition (round half toward +∞).
-/

namespace BlockClock

/-- `AVERAGE_BLOCK_TIME = 10 * 60 * 1000` — 10 minutes in milliseconds
(src line 11). -/
def AVERAGE_BLOCK_TIME : ℤ := 10 * 60 * 1000

/-- JavaScript `Math.round`: rounds to the nearest integer, halves toward
positive infinity, i.e. `⌊x + 1/2⌋`. -/
def jsRound (x : ℚ) : ℤ := ⌊x + 1/2⌋

/-- `blocksDiff = Math.round(timeDiff / AVERAGE_BLOCK_TIME)` — the block
count corresponding to a time difference in milliseconds (src lines 74
and 79; both branches use the same expression). -/
def blocksDiff (timeDiff : ℤ) : ℤ :=
  jsRound ((timeDiff : ℚ) / (AVERAGE_BLOCK_TIME : ℚ))

/-- The arithmetic core of `calculateBlockFromDate` (src lines 67–82):
given the target timestamp, the current timestamp (`Date.now()`), and the
current block height, compute the estimated block height.  Future dates
add `blocksDiff` blocks; past (or present) dates subtract `blocksDiff`
blocks and clamp at 0 via `Math.max(0, estimatedBlock)`. -/
def calculateBlockFromDate (targetTimestamp nowMs tipHeight : ℤ) : ℤ :=
  if targetTimestamp > nowMs then
    tipHeight + blocksDiff (targetTimestamp - nowMs)
  else
    max 0 (tipHeight - blocksDiff (nowMs - targetTimestamp))

/-- The arithmetic core of `calculateDateFromBlock` (src lines 95–98):
`blockDiff = targetBlock - currentBlockHeight`;
`timeDiff = blockDiff * AVERAGE_BLOCK_TIME`;
result `= Date.now() + timeDiff`. -/
def calculateDateFromBlock (targetBlock nowMs tipHeight : ℤ) : ℤ :=
  nowMs + (targetBlock - tipHeight) * AVERAGE_BLOCK_TIME

/-- Outcome of pressing "Calculate Block Height": either the `MissingInput`
toast (src lines 58–65) or a computed height placed into state
(`setCalculatedBlock`). -/
inductive DateToBlockOutcome where
  | missingInput
  | computed (height : ℤ)
deriving DecidableEq

/-- The `calculateBlockFromDate` handler including its guard (src lines
57–83).  The JavaScript guard `!dateInput || !timeInput || !currentBlockHeight`
refuses when either string is empty (falsy), when `currentBlockHeight` is
`null`, or when it is `0` (also falsy).  The parsed target timestamp and
`Date.now()` are passed in as the integers they evaluate to. -/
def calculateBlockFromDateHandler (dateInput timeInput : String)
    (currentBlockHeight : Option ℤ) (targetTimestamp nowMs : ℤ) :
    DateToBlockOutcome :=
  match currentBlockHeight with
  | none => .missingInput
  | some h =>
    if dateInput = "" ∨ timeInput = "" ∨ h = 0 then .missingInput
    else .computed (calculateBlockFromDate targetTimestamp nowMs h)

/-- Component state relevant to the tip-height fetch: the stored
`currentBlockHeight` (`null` when never loaded) and the `loading` flag. -/
structure CalcState where
  currentBlockHeight : Option ℤ
  loading : Bool
deriving DecidableEq

/-- Resolution of the HTTP request inside `fetchCurrentBlock`: either the
parsed integer height, or any transport/parse failure (rejected promise). -/
inductive FetchResponse where
  | ok (height : ℤ)
  | error
deriving DecidableEq

/-- Result of one run of `fetchCurrentBlock`: the state after the
try/catch/finally, and whether the destructive "Failed to fetch current
block height" toast was raised. -/
structure FetchOutcome where
  state : CalcState
  fetchErrorToast : Bool
deriving DecidableEq

/-- `fetchCurrentBlock` (src lines 36–55) as a state transformer over the
resolved response.  On success it stores the height; on failure the catch
block only raises the error toast and `currentBlockHeight` is not written;
the finally block clears `loading` either way. -/
def fetchCurrentBlock (s : CalcState) (r : FetchResponse) : FetchOutcome :=
  match r with
  | .ok h => ⟨{ currentBlockHeight := some h, loading := false }, false⟩
  | .error => ⟨{ s with loading := false }, true⟩

/-! ### Helper lemmas about the rounding -/

/-- `Math.round` lands within half a unit of its argument. -/
lemma jsRound_sub_le (x : ℚ) : |(jsRound x : ℚ) - x| ≤ 1/2 := by
  unfold jsRound
  have h1 := Int.floor_le (x + 1/2)
  have h2 := Int.lt_floor_add_one (x + 1/2)
  rw [abs_le]
  constructor <;> linarith

/-- `Math.round` is monotone. -/
lemma jsRound_mono {x y : ℚ} (hxy : x ≤ y) : jsRound x ≤ jsRound y := by
  unfold jsRound
  exact Int.floor_le_floor (by linarith)

/-- A non-negative time difference rounds to a non-negative block count. -/
lemma blocksDiff_nonneg (d : ℤ) (hd : 0 ≤ d) : 0 ≤ blocksDiff d := by
  unfold blocksDiff jsRound
  rw [Int.floor_nonneg]
  have hB : (0 : ℚ) < (AVERAGE_BLOCK_TIME : ℚ) := by norm_num [AVERAGE_BLOCK_TIME]
  have : (0 : ℚ) ≤ (d : ℚ) / (AVERAGE_BLOCK_TIME : ℚ) :=
    div_nonneg (by exact_mod_cast hd) (le_of_lt hB)
  linarith

/-- `blocksDiff` is monotone in the time difference. -/
lemma blocksDiff_mono {d₁ d₂ : ℤ} (hd : d₁ ≤ d₂) : blocksDiff d₁ ≤ blocksDiff d₂ := by
  unfold blocksDiff
  refine jsRound_mono ?_
  have hB : (0 : ℚ) < (AVERAGE_BLOCK_TIME : ℚ) := by norm_num [AVERAGE_BLOCK_TIME]
  have hdq : (d₁ : ℚ) ≤ (d₂ : ℚ) := by exact_mod_cast hd
  exact (div_le_div_iff_of_pos_right hB).mpr hdq

/-- Converting a time difference to blocks and back moves it by at most one
block interval (in fact at most half of one). -/
lemma blocksDiff_mul_bound (d : ℤ) :
    |blocksDiff d * AVERAGE_BLOCK_TIME - d| ≤ AVERAGE_BLOCK_TIME := by
  have hB : (AVERAGE_BLOCK_TIME : ℚ) = 600000 := by norm_num [AVERAGE_BLOCK_TIME]
  have habs := jsRound_sub_le ((d : ℚ) / (AVERAGE_BLOCK_TIME : ℚ))
  rw [abs_le] at habs
  have hx : (d : ℚ) / (AVERAGE_BLOCK_TIME : ℚ) * 600000 = (d : ℚ) := by
    rw [hB]
    exact div_mul_cancel₀ _ (by norm_num)
  have hq : |((blocksDiff d : ℤ) : ℚ) * 600000 - (d : ℚ)| ≤ 600000 := by
    unfold blocksDiff
    rw [abs_le]
    constructor <;> nlinarith [habs.1, habs.2, hx]
  have hcast : ((|blocksDiff d * AVERAGE_BLOCK_TIME - d| : ℤ) : ℚ)
      ≤ ((AVERAGE_BLOCK_TIME : ℤ) : ℚ) := by
    push_cast
    rw [hB]
    exact hq
  exact_mod_cast hcast

/-- Concrete evaluation: 700000 ms rounds to 1 block. -/
lemma blocksDiff_700000 : blocksDiff 700000 = 1 := by
  norm_num [blocksDiff, jsRound, AVERAGE_BLOCK_TIME]

/-- Concrete evaluation: 6,000,000 ms is exactly 10 blocks. -/
lemma blocksDiff_6000000 : blocksDiff 6000000 = 10 := by
  norm_num [blocksDiff, jsRound, AVERAGE_BLOCK_TIME]

/-- Concrete evaluation: a zero time difference is zero blocks. -/
lemma blocksDiff_zero : blocksDiff 0 = 0 := by
  norm_num [blocksDiff, jsRound, AVERAGE_BLOCK_TIME]

/-! ### Claim theorems -/

/-- C1 (counterexample): with non-blank date and time inputs and a present
TipHeight of 0, the date-to-block calculation is refused with `MissingInput`
rather than performed — the JavaScript guard `!currentBlockHeight` treats
the height `0` as falsy, so refusal does not happen exactly when an input is
blank or TipHeight is absent. -/
theorem C1_counterexample :
    calculateBlockFromDateHandler "2024-01-01" "12:00" (some 0) 0 0
      = DateToBlockOutcome.missingInput := by
  decide

/-- C1 (amended): the date-to-block calculation is refused with
`MissingInput` exactly when a required input is blank, TipHeight is absent,
or TipHeight equals 0; in every other case it is performed and produces the
`Computed` result of `calculateBlockFromDate`. -/
theorem C1_guard_characterisation (dateInput timeInput : String)
    (cbh : Option ℤ) (ts now : ℤ) :
    (calculateBlockFromDateHandler dateInput timeInput cbh ts now
        = DateToBlockOutcome.missingInput
      ↔ (dateInput = "" ∨ timeInput = "" ∨ cbh = none ∨ cbh = some 0)) ∧
    (∀ hgt : ℤ, cbh = some hgt → hgt ≠ 0 → dateInput ≠ "" → timeInput ≠ "" →
      calculateBlockFromDateHandler dateInput timeInput cbh ts now
        = DateToBlockOutcome.computed (calculateBlockFromDate ts now hgt)) := by
  cases cbh with
  | none => simp [calculateBlockFromDateHandler]
  | some hgt =>
    simp only [calculateBlockFromDateHandler]
    by_cases hcond : dateInput = "" ∨ timeInput = "" ∨ hgt = 0
    · rw [if_pos hcond]
      refine ⟨⟨fun _ => ?_, fun _ => rfl⟩, ?_⟩
      · rcases hcond with h | h | h
        · exact Or.inl h
        · exact Or.inr (Or.inl h)
        · exact Or.inr (Or.inr (Or.inr (by rw [h])))
      · intro v hv h0 hd ht
        exfalso
        rcases hcond with h | h | h
        · exact hd h
        · exact ht h
        · injection hv with he
          omega
    · rw [if_neg hcond]
      push_neg at hcond
      obtain ⟨hd, ht, h0⟩ := hcond
      refine ⟨⟨fun hmi => absurd hmi (by simp), fun hor => ?_⟩, ?_⟩
      · exfalso
        rcases hor with h | h | h | h
        · exact hd h
        · exact ht h
        · exact Option.noConfusion h
        · injection h with he
          exact h0 he
      · intro v hv h0v hdv htv
        injection hv with he
        rw [he]

/-- C1 witness: with non-blank inputs and a present nonzero TipHeight the
handler computes. -/
theorem C1_witness :
    calculateBlockFromDateHandler "2024-01-01" "12:00" (some 800000) 0 0
      = DateToBlockOutcome.computed (calculateBlockFromDate 0 0 800000) :=
  (C1_guard_characterisation "2024-01-01" "12:00" (some 800000) 0 0).2 800000
    rfl (by decide) (by decide) (by decide)

/-- C2 (counterexample): the round trip is NOT always within one
BlockInterval: with tipHeight 0, `now = 0` and `t = -700000` the past branch
clamps the height to 0, and the round trip lands at 0, which is 700000 ms
(more than one BlockInterval) away from `t`. -/
theorem C2_counterexample :
    ¬ (|calculateDateFromBlock (calculateBlockFromDate (-700000) 0 0) 0 0
          - (-700000)| ≤ AVERAGE_BLOCK_TIME) := by
  norm_num [calculateDateFromBlock, calculateBlockFromDate, blocksDiff,
    jsRound, AVERAGE_BLOCK_TIME]

/-- C2 (amended): whenever the past branch does not clamp (the target is in
the future, or the unclamped estimate `tipHeight - blocksDiff (now - t)` is
non-negative), the round trip `blockToDate (dateToBlock t now h) now h`
differs from `t` by at most one BlockInterval. -/
theorem C2_roundtrip (t now h : ℤ)
    (hnc : now < t ∨ 0 ≤ h - blocksDiff (now - t)) :
    |calculateDateFromBlock (calculateBlockFromDate t now h) now h - t|
      ≤ AVERAGE_BLOCK_TIME := by
  by_cases hf : now < t
  · have hb := blocksDiff_mul_bound (t - now)
    have hcalc : calculateDateFromBlock (calculateBlockFromDate t now h) now h - t
        = blocksDiff (t - now) * AVERAGE_BLOCK_TIME - (t - now) := by
      unfold calculateDateFromBlock calculateBlockFromDate
      rw [if_pos hf]
      ring
    rw [hcalc]
    exact hb
  · have hcl : 0 ≤ h - blocksDiff (now - t) := hnc.resolve_left hf
    have hb := blocksDiff_mul_bound (now - t)
    have hcalc : calculateDateFromBlock (calculateBlockFromDate t now h) now h - t
        = -(blocksDiff (now - t) * AVERAGE_BLOCK_TIME - (now - t)) := by
      unfold calculateDateFromBlock calculateBlockFromDate
      rw [if_neg hf, max_eq_right hcl]
      ring
    rw [hcalc, abs_neg]
    exact hb

/-- C2 witness: round trip at a concrete future input. -/
theorem C2_witness :
    |calculateDateFromBlock (calculateBlockFromDate 6000000 0 800000) 0 800000
        - 6000000| ≤ AVERAGE_BLOCK_TIME :=
  C2_roundtrip 6000000 0 800000 (Or.inl (by decide))

/-- C3: for a past target far enough that the unclamped estimate
`tipHeight - blocksDiff (now - t)` is negative, `calculateBlockFromDate`
returns exactly 0 (the `Math.max(0, ·)` clamp fires). -/
theorem C3_clamped_to_zero (t now h : ℤ) (hpast : t < now)
    (hneg : h - blocksDiff (now - t) < 0) :
    calculateBlockFromDate t now h = 0 := by
  unfold calculateBlockFromDate
  rw [if_neg (by omega)]
  exact max_eq_left (by omega)

/-- C3 witness: `t = -700000`, `now = 0`, `tipHeight = 0` clamps to 0. -/
theorem C3_witness : calculateBlockFromDate (-700000) 0 0 = 0 :=
  C3_clamped_to_zero (-700000) 0 0 (by decide)
    (by simp [blocksDiff_700000])

/-- C4: a zero time delta gives a zero block delta —
`calculateBlockFromDate now now h = h` for every non-negative tip height. -/
theorem C4_zero_delta (now h : ℤ) (hh : 0 ≤ h) :
    calculateBlockFromDate now now h = h := by
  unfold calculateBlockFromDate
  rw [if_neg (lt_irrefl now), sub_self, blocksDiff_zero]
  omega

/-- C4 witness: at `now = 0`, `tipHeight = 800000`. -/
theorem C4_witness : calculateBlockFromDate 0 0 800000 = 800000 :=
  C4_zero_delta 0 800000 (by decide)

/-- C5: a target height equal to the current tip yields zero time offset —
`calculateDateFromBlock h now h = now` for all `now` and `h`. -/
theorem C5_tip_gives_now (now h : ℤ) : calculateDateFromBlock h now h = now := by
  unfold calculateDateFromBlock
  ring

/-- C6: `calculateDateFromBlock` returns exactly
`nowMs + (targetHeight - tipHeight) * 600000`, with no clamping, for every
integer target height (including targets below the tip). -/
theorem C6_exact_formula (target now h : ℤ) :
    calculateDateFromBlock target now h = now + (target - h) * 600000 := by
  norm_num [calculateDateFromBlock, AVERAGE_BLOCK_TIME]

/-- C7: for a future target, `calculateBlockFromDate` returns
`tipHeight + blocksDiff (t - now)` (where `blocksDiff` is the rounded
quotient by the BlockInterval) and this result is at least `tipHeight`. -/
theorem C7_future_branch (t now h : ℤ) (hfut : now < t) (_hh : 0 ≤ h) :
    calculateBlockFromDate t now h = h + blocksDiff (t - now) ∧
    h ≤ calculateBlockFromDate t now h := by
  have he : calculateBlockFromDate t now h = h + blocksDiff (t - now) := by
    unfold calculateBlockFromDate
    rw [if_pos hfut]
  refine ⟨he, ?_⟩
  have hge : 0 ≤ blocksDiff (t - now) := blocksDiff_nonneg _ (by omega)
  omega

/-- C7 witness: at `t = 6000000`, `now = 0`, `tipHeight = 800000`. -/
theorem C7_witness :
    calculateBlockFromDate 6000000 0 800000 = 800000 + blocksDiff (6000000 - 0) ∧
    800000 ≤ calculateBlockFromDate 6000000 0 800000 :=
  C7_future_branch 6000000 0 800000 (by decide) (by decide)

/-- C8: when the tip-height fetch fails, the `FetchError` toast is raised
and the stored `currentBlockHeight` is exactly what it was before the call
(retained if present, absent if none existed). -/
theorem C8_fetch_failure_preserves_tip (s : CalcState) :
    (fetchCurrentBlock s .error).state.currentBlockHeight = s.currentBlockHeight ∧
    (fetchCurrentBlock s .error).fetchErrorToast = true :=
  ⟨rfl, rfl⟩

/-- C9: with `tipHeight = 800000`, a target 6,000,000 ms in the future is
exactly 10 blocks ahead: `calculateBlockFromDate (T + 6000000) T 800000 =
800010` for every `T`. -/
theorem C9_concrete_scenario (T : ℤ) :
    calculateBlockFromDate (T + 6000000) T 800000 = 800010 := by
  unfold calculateBlockFromDate
  rw [if_pos (by omega), show T + 6000000 - T = (6000000 : ℤ) by ring,
    blocksDiff_6000000]
  norm_num

/-- C10: for a fixed `now` and non-negative tip height,
`calculateBlockFromDate` is monotone non-decreasing in the target timestamp,
including across the future/past branch boundary. -/
theorem C10_monotone (now h t₁ t₂ : ℤ) (hh : 0 ≤ h) (ht : t₁ ≤ t₂) :
    calculateBlockFromDate t₁ now h ≤ calculateBlockFromDate t₂ now h := by
  unfold calculateBlockFromDate
  by_cases h1 : t₁ > now <;> by_cases h2 : t₂ > now
  · rw [if_pos h1, if_pos h2]
    have := blocksDiff_mono (show t₁ - now ≤ t₂ - now by omega)
    omega
  · omega
  · rw [if_neg h1, if_pos h2]
    have ha : 0 ≤ blocksDiff (now - t₁) := blocksDiff_nonneg _ (by omega)
    have hb : 0 ≤ blocksDiff (t₂ - now) := blocksDiff_nonneg _ (by omega)
    omega
  · rw [if_neg h1, if_neg h2]
    have := blocksDiff_mono (show now - t₂ ≤ now - t₁ by omega)
    omega

/-- C10 witness: monotone across the branch boundary at a concrete input. -/
theorem C10_witness :
    calculateBlockFromDate (-700000) 0 5 ≤ calculateBlockFromDate 300000 0 5 :=
  C10_monotone 0 5 (-700000) 300000 (by decide) (by decide)

end BlockClock
